import Mathlib

/-!
Verification of the numeric core and the Generate handler of `src/app.py`
(a Streamlit sequence-generator page).

Python floats are embedded as exact rationals (`ℚ`); `num_terms` is an
integer (`ℤ` where it flows from the UI through `int(num_terms)`, `ℕ` as
the loop bound of `range`, since `range(k)` for `k ≤ 0` is empty and the
generators are only reached with a validated positive count).
-/

namespace App

/-- Embedding of `generate_arithmetic_sequence` (src/app.py lines 3-19):
starts from the empty list and, for each `n` in `range(num_terms)`,
appends `first_term + (n * common_difference)`. -/
def generate_arithmetic_sequence (first_term common_difference : ℚ)
    (num_terms : ℕ) : List ℚ :=
  (List.range num_terms).foldl
    (fun (sequence : List ℚ) (n : ℕ) => sequence ++ [first_term + (n : ℚ) * common_difference]) []

/-- Embedding of `generate_geometric_sequence` (src/app.py lines 21-37):
starts from the empty list and, for each `n` in `range(num_terms)`,
appends `first_term * (common_ratio ** n)`. -/
def generate_geometric_sequence (first_term common_ratio : ℚ)
    (num_terms : ℕ) : List ℚ :=
  (List.range num_terms).foldl
    (fun (sequence : List ℚ) (n : ℕ) => sequence ++ [first_term * common_ratio ^ n]) []

/-- Embedding of `calculate_geometric_sum` (src/app.py lines 39-54):
`num_terms * first_term` when the ratio is 1, otherwise the closed form
`first_term * (1 - common_ratio ** num_terms) / (1 - common_ratio)`. -/
def calculate_geometric_sum (first_term common_ratio : ℚ) (num_terms : ℕ) : ℚ :=
  if common_ratio = 1 then
    (num_terms : ℚ) * first_term
  else
    first_term * (1 - common_ratio ^ num_terms) / (1 - common_ratio)

/-- Rational division instrumented to fail on a zero divisor, so that the
single division in `calculate_geometric_sum` (line 54) can be checked for
division by zero: Python raises `ZeroDivisionError` there, while `ℚ`
silently yields 0. -/
def qdivChecked (x y : ℚ) : Option ℚ :=
  if y = 0 then none else some (x / y)

/-- `calculate_geometric_sum` with its division routed through
`qdivChecked`; otherwise line-for-line the same as
`calculate_geometric_sum` (src/app.py lines 39-54). -/
def calculate_geometric_sum_checked (first_term common_ratio : ℚ)
    (num_terms : ℕ) : Option ℚ :=
  if common_ratio = 1 then
    some ((num_terms : ℚ) * first_term)
  else
    qdivChecked (first_term * (1 - common_ratio ^ num_terms)) (1 - common_ratio)

/-- The append-loop of `generate_arithmetic_sequence` produces the map of
the term formula over `range num_terms`. -/
lemma generate_arithmetic_sequence_eq_map (a d : ℚ) (n : ℕ) :
    generate_arithmetic_sequence a d n =
      (List.range n).map (fun (i : ℕ) => a + (i : ℚ) * d) := by
  have key : ∀ (l : List ℕ) (acc : List ℚ),
      l.foldl (fun (sequence : List ℚ) (k : ℕ) => sequence ++ [a + (k : ℚ) * d]) acc =
        acc ++ l.map (fun (i : ℕ) => a + (i : ℚ) * d) := by
    intro l
    induction l with
    | nil => intro acc; simp
    | cons x xs ih => intro acc; simp [List.foldl_cons, ih]
  simpa using key (List.range n) []

/-- The append-loop of `generate_geometric_sequence` produces the map of
the term formula over `range num_terms`. -/
lemma generate_geometric_sequence_eq_map (a r : ℚ) (n : ℕ) :
    generate_geometric_sequence a r n =
      (List.range n).map (fun (i : ℕ) => a * r ^ i) := by
  have key : ∀ (l : List ℕ) (acc : List ℚ),
      l.foldl (fun (sequence : List ℚ) (k : ℕ) => sequence ++ [a * r ^ k]) acc =
        acc ++ l.map (fun (i : ℕ) => a * r ^ i) := by
    intro l
    induction l with
    | nil => intro acc; simp
    | cons x xs ih => intro acc; simp [List.foldl_cons, ih]
  simpa using key (List.range n) []

end App

namespace App

/-- C1: `generate_arithmetic_sequence a d n` returns a list of exactly `n`
values whose `i`-th element (0-based) equals `a + i * d` for every
`i < n`. -/
theorem arithmetic_sequence_correct (a d : ℚ) (n : ℕ) :
    (generate_arithmetic_sequence a d n).length = n ∧
      ∀ i, i < n →
        (generate_arithmetic_sequence a d n).get? i = some (a + (i : ℚ) * d) := by
  rw [generate_arithmetic_sequence_eq_map]
  constructor
  · simp
  · intro i hi
    rw [List.get?_map, List.get?_range hi]
    rfl

/-- C2: `generate_geometric_sequence a r n` returns a list of exactly `n`
values whose `i`-th element (0-based) equals `a * r ^ i` for every
`i < n`. -/
theorem geometric_sequence_correct (a r : ℚ) (n : ℕ) :
    (generate_geometric_sequence a r n).length = n ∧
      ∀ i, i < n →
        (generate_geometric_sequence a r n).get? i = some (a * r ^ i) := by
  rw [generate_geometric_sequence_eq_map]
  constructor
  · simp
  · intro i hi
    rw [List.get?_map, List.get?_range hi]
    rfl

/-- C3: `calculate_geometric_sum a r n` returns `n * a` when `r = 1` and
`a * (1 - r ^ n) / (1 - r)` when `r ≠ 1`. -/
theorem geometric_sum_formula (a r : ℚ) (n : ℕ) :
    (r = 1 → calculate_geometric_sum a r n = (n : ℚ) * a) ∧
      (r ≠ 1 →
        calculate_geometric_sum a r n = a * (1 - r ^ n) / (1 - r)) := by
  constructor
  · intro h; simp [calculate_geometric_sum, h]
  · intro h; simp [calculate_geometric_sum, h]

/-- C4: the division in `calculate_geometric_sum` is reached only with a
nonzero divisor: the checked variant never fails and agrees with the
function on every input, so the function is total. -/
theorem geometric_sum_no_div_by_zero (a r : ℚ) (n : ℕ) :
    calculate_geometric_sum_checked a r n =
      some (calculate_geometric_sum a r n) := by
  by_cases h : r = 1
  · simp [calculate_geometric_sum_checked, calculate_geometric_sum, h]
  · have hne : (1 : ℚ) - r ≠ 0 := sub_ne_zero.mpr fun h1 => h h1.symm
    simp [calculate_geometric_sum_checked, calculate_geometric_sum, h,
      qdivChecked, hne]

end App

namespace App

/-- Sum of a geometric sequence, by induction on the term count: the sum of
`generate_geometric_sequence a r n` is `n * a` when `r = 1` and
`a * (1 - r ^ n) / (1 - r)` otherwise. -/
lemma geometric_sequence_sum (a r : ℚ) (n : ℕ) :
    (generate_geometric_sequence a r n).sum =
      if r = 1 then (n : ℚ) * a else a * (1 - r ^ n) / (1 - r) := by
  rw [generate_geometric_sequence_eq_map]
  induction n with
  | zero => simp
  | succ m ih =>
    rw [List.range_succ, List.map_append, List.sum_append]
    rw [ih]
    by_cases h : r = 1
    · simp [h]; ring
    · have hne : (1 : ℚ) - r ≠ 0 := sub_ne_zero.mpr fun h1 => h h1.symm
      simp only [if_neg h, List.map_cons, List.map_nil, List.sum_cons,
        List.sum_nil, add_zero]
      field_simp
      ring

/-- C7: under exact rational arithmetic, `calculate_geometric_sum a r n`
equals the sum of the `n` elements of `generate_geometric_sequence a r n`. -/
theorem geometric_sum_refines_sequence_sum (a r : ℚ) (n : ℕ) :
    (generate_geometric_sequence a r n).sum = calculate_geometric_sum a r n := by
  rw [geometric_sequence_sum, calculate_geometric_sum]

end App

namespace App

/-! State-instrumented variants for the purity claim: each function is
re-embedded threading an arbitrary outside world `σ` through every loop
iteration. The Python bodies read only their parameters and local
variables and write nothing outside the return value, so each iteration
passes the world through untouched. -/

/-- `generate_arithmetic_sequence` threading an outside world `σ` through
the loop of src/app.py lines 15-19. -/
def generate_arithmetic_sequence_st {σ : Type} (s : σ)
    (first_term common_difference : ℚ) (num_terms : ℕ) : List ℚ × σ :=
  (List.range num_terms).foldl
    (fun (p : List ℚ × σ) (n : ℕ) =>
      (p.1 ++ [first_term + (n : ℚ) * common_difference], p.2)) ([], s)

/-- `generate_geometric_sequence` threading an outside world `σ` through
the loop of src/app.py lines 33-37. -/
def generate_geometric_sequence_st {σ : Type} (s : σ)
    (first_term common_ratio : ℚ) (num_terms : ℕ) : List ℚ × σ :=
  (List.range num_terms).foldl
    (fun (p : List ℚ × σ) (n : ℕ) =>
      (p.1 ++ [first_term * common_ratio ^ n], p.2)) ([], s)

/-- `calculate_geometric_sum` threading an outside world `σ` through the
straight-line body of src/app.py lines 51-54. -/
def calculate_geometric_sum_st {σ : Type} (s : σ)
    (first_term common_ratio : ℚ) (num_terms : ℕ) : ℚ × σ :=
  if common_ratio = 1 then
    ((num_terms : ℚ) * first_term, s)
  else
    (first_term * (1 - common_ratio ^ num_terms) / (1 - common_ratio), s)

lemma generate_arithmetic_sequence_st_eq {σ : Type} (s : σ)
    (a d : ℚ) (n : ℕ) :
    generate_arithmetic_sequence_st s a d n =
      (generate_arithmetic_sequence a d n, s) := by
  unfold generate_arithmetic_sequence_st generate_arithmetic_sequence
  have key : ∀ (l : List ℕ) (acc : List ℚ),
      l.foldl (fun (p : List ℚ × σ) (k : ℕ) =>
          (p.1 ++ [a + (k : ℚ) * d], p.2)) (acc, s) =
        (l.foldl (fun (sequence : List ℚ) (k : ℕ) =>
          sequence ++ [a + (k : ℚ) * d]) acc, s) := by
    intro l
    induction l with
    | nil => intro acc; rfl
    | cons x xs ih => intro acc; simp [List.foldl_cons, ih]
  exact key (List.range n) []

lemma generate_geometric_sequence_st_eq {σ : Type} (s : σ)
    (a r : ℚ) (n : ℕ) :
    generate_geometric_sequence_st s a r n =
      (generate_geometric_sequence a r n, s) := by
  unfold generate_geometric_sequence_st generate_geometric_sequence
  have key : ∀ (l : List ℕ) (acc : List ℚ),
      l.foldl (fun (p : List ℚ × σ) (k : ℕ) =>
          (p.1 ++ [a * r ^ k], p.2)) (acc, s) =
        (l.foldl (fun (sequence : List ℚ) (k : ℕ) =>
          sequence ++ [a * r ^ k]) acc, s) := by
    intro l
    induction l with
    | nil => intro acc; rfl
    | cons x xs ih => intro acc; simp [List.foldl_cons, ih]
  exact key (List.range n) []

lemma calculate_geometric_sum_st_eq {σ : Type} (s : σ)
    (a r : ℚ) (n : ℕ) :
    calculate_geometric_sum_st s a r n = (calculate_geometric_sum a r n, s) := by
  unfold calculate_geometric_sum_st calculate_geometric_sum
  by_cases h : r = 1 <;> simp [h]

/-- C9: each of the three numeric functions is deterministic and
side-effect free: run from any two worlds `s₁`, `s₂` with identical
arguments, the instrumented versions return identical results, and each
returns its world unchanged. -/
theorem numeric_core_pure_deterministic {σ : Type} (s₁ s₂ : σ)
    (a d r : ℚ) (n : ℕ) :
    ((generate_arithmetic_sequence_st s₁ a d n).1 =
        (generate_arithmetic_sequence_st s₂ a d n).1 ∧
      (generate_arithmetic_sequence_st s₁ a d n).2 = s₁) ∧
    ((generate_geometric_sequence_st s₁ a r n).1 =
        (generate_geometric_sequence_st s₂ a r n).1 ∧
      (generate_geometric_sequence_st s₁ a r n).2 = s₁) ∧
    ((calculate_geometric_sum_st s₁ a r n).1 =
        (calculate_geometric_sum_st s₂ a r n).1 ∧
      (calculate_geometric_sum_st s₁ a r n).2 = s₁) := by
  rw [generate_arithmetic_sequence_st_eq, generate_arithmetic_sequence_st_eq,
    generate_geometric_sequence_st_eq, generate_geometric_sequence_st_eq,
    calculate_geometric_sum_st_eq, calculate_geometric_sum_st_eq]
  exact ⟨⟨rfl, rfl⟩, ⟨rfl, rfl⟩, ⟨rfl, rfl⟩⟩

end App

namespace App

/-- The two options of the `st.selectbox` at src/app.py lines 71-75. -/
inductive SequenceType
  | arithmetic
  | geometric
  deriving DecidableEq

/-- Python identifiers relevant to the Generate handler. The locals bound
before line 146 are `first_term` (line 98), `second_param` (lines 107/114),
and `num_terms` (lines 122, 135); `common_difference` is referenced at
line 146 but bound nowhere in `main`. -/
inductive PyName
  | first_term
  | second_param
  | num_terms
  | common_difference
  deriving DecidableEq

/-- Python local-name lookup: `some` the bound value, `none` when the name
is unbound (Python raises `NameError`). -/
def lookupLocal : List (PyName × ℚ) → PyName → Option ℚ
  | [], _ => none
  | (y, v) :: rest, x => if y = x then some v else lookupLocal rest x

/-- The numeric locals bound in `main` when control reaches line 146:
`first_term` from the first number input, `second_param` from the second
(its label depends on the mode, its binding does not), and `num_terms`
after the `int` conversion at line 135. `common_difference` is absent. -/
def handlerLocals (first_term second_param : ℚ) (num_terms : ℤ) :
    List (PyName × ℚ) :=
  [(PyName.first_term, first_term),
   (PyName.second_param, second_param),
   (PyName.num_terms, (num_terms : ℚ))]

/-- Outcome of one press of the Generate button (src/app.py lines 132-218). -/
inductive GenOutcome
  | errNonPositive
  | errTooMany
  | nameErrorCaught
  | rendered (sequence : List ℚ) (sequenceSum : ℚ) (average : ℚ)
  deriving DecidableEq

/-- Embedding of the Generate branch of `main` (src/app.py lines 132-218):
reject `num_terms ≤ 0` (lines 137-139), reject `num_terms > 1000`
(lines 141-143), then evaluate line 146, which calls
`generate_arithmetic_sequence(first_term, common_difference, num_terms)`
in both modes. Evaluating the argument `common_difference` looks the name
up in the handler locals; an unbound name raises `NameError`, caught by
the `except` at line 217 and surfaced as a generic error (line 218).
Were both argument names bound, the handler would render the sequence,
its sum (line 201) and its average `sum / num_terms` (line 202). -/
def runGenerateHandler (sequence_type : SequenceType)
    (first_term second_param : ℚ) (num_terms : ℤ) : GenOutcome :=
  if num_terms ≤ 0 then
    GenOutcome.errNonPositive
  else if num_terms > 1000 then
    GenOutcome.errTooMany
  else
    match lookupLocal (handlerLocals first_term second_param num_terms)
            PyName.first_term,
          lookupLocal (handlerLocals first_term second_param num_terms)
            PyName.common_difference with
    | some a, some d =>
      let sequence := generate_arithmetic_sequence a d num_terms.toNat
      let sequenceSum := sequence.sum
      GenOutcome.rendered sequence sequenceSum (sequenceSum / (num_terms : ℚ))
    | _, _ => GenOutcome.nameErrorCaught

end App

namespace App

/-- C5: every `termCount ≤ 0` submitted to the Generate handler is
rejected with the user-visible error of line 138, the handler returning
before the generation statement of line 146 is reached, so no generator
function is invoked. -/
theorem termcount_nonpositive_rejected (t : SequenceType) (a p : ℚ)
    (n : ℤ) (h : n ≤ 0) :
    runGenerateHandler t a p n = GenOutcome.errNonPositive := by
  simp [runGenerateHandler, h]

/-- Witness for C5 at `termCount = 0`. -/
theorem termcount_nonpositive_rejected_witness :
    (0 : ℤ) ≤ 0 ∧
      runGenerateHandler SequenceType.arithmetic 1 1 0 =
        GenOutcome.errNonPositive :=
  ⟨by decide,
    termcount_nonpositive_rejected SequenceType.arithmetic 1 1 0 (by decide)⟩

/-- C6: the upper bound on `termCount` is inclusive at 1000: every value
above 1000 is rejected with the error of line 142, while 1000 passes both
validation checks, so control proceeds to the generation statement. -/
theorem termcount_upper_bound_inclusive (t : SequenceType) (a p : ℚ)
    (n : ℤ) :
    (1000 < n → runGenerateHandler t a p n = GenOutcome.errTooMany) ∧
      runGenerateHandler t a p 1000 ≠ GenOutcome.errNonPositive ∧
      runGenerateHandler t a p 1000 ≠ GenOutcome.errTooMany := by
  refine ⟨fun h => ?_, ?_, ?_⟩
  · have h0 : ¬ n ≤ 0 := by omega
    simp [runGenerateHandler, h0, h]
  · simp [runGenerateHandler, lookupLocal, handlerLocals]
  · simp [runGenerateHandler, lookupLocal, handlerLocals]

/-- Witness for C6 at `termCount = 1001` (rejected) and `termCount = 1000`
(accepted by validation). -/
theorem termcount_upper_bound_inclusive_witness :
    (1000 : ℤ) < 1001 ∧
      runGenerateHandler SequenceType.arithmetic 1 1 1001 =
        GenOutcome.errTooMany ∧
      runGenerateHandler SequenceType.arithmetic 1 1 1000 ≠
        GenOutcome.errNonPositive ∧
      runGenerateHandler SequenceType.arithmetic 1 1 1000 ≠
        GenOutcome.errTooMany :=
  ⟨by decide,
    (termcount_upper_bound_inclusive SequenceType.arithmetic 1 1 1001).1
      (by decide),
    (termcount_upper_bound_inclusive SequenceType.arithmetic 1 1 1001).2⟩

/-- C10: for every press of Generate whose `termCount` passes validation,
in either mode, evaluating line 146 raises `NameError` (the name
`common_difference` is unbound: the second input was stored as
`second_param`), the exception is caught at line 217 and surfaced as a
generic error; consequently the Results section is rendered for no input
whatsoever. -/
theorem generation_always_nameerror (t : SequenceType) (a p : ℚ) (n : ℤ) :
    (0 < n → n ≤ 1000 →
      runGenerateHandler t a p n = GenOutcome.nameErrorCaught) ∧
      ∀ (s : List ℚ) (q v : ℚ),
        runGenerateHandler t a p n ≠ GenOutcome.rendered s q v := by
  constructor
  · intro h1 h2
    have h0 : ¬ n ≤ 0 := by omega
    have hm : ¬ n > 1000 := by omega
    simp [runGenerateHandler, h0, hm, lookupLocal, handlerLocals]
  · intro s q v
    by_cases h0 : n ≤ 0
    · simp [runGenerateHandler, h0]
    · by_cases hm : n > 1000
      · simp [runGenerateHandler, h0, hm]
      · simp [runGenerateHandler, h0, hm, lookupLocal, handlerLocals]

/-- Witness for C10: a validated geometric-mode request ends in the caught
`NameError` and is not rendered. -/
theorem generation_always_nameerror_witness :
    (0 : ℤ) < 4 ∧ (4 : ℤ) ≤ 1000 ∧
      runGenerateHandler SequenceType.geometric 2 3 4 =
        GenOutcome.nameErrorCaught ∧
      runGenerateHandler SequenceType.geometric 2 3 4 ≠
        GenOutcome.rendered (generate_geometric_sequence 2 3 4)
          (calculate_geometric_sum 2 3 4) (calculate_geometric_sum 2 3 4 / 4) :=
  ⟨by decide, by decide,
    (generation_always_nameerror SequenceType.geometric 2 3 4).1
      (by decide) (by decide),
    (generation_always_nameerror SequenceType.geometric 2 3 4).2 _ _ _⟩

/-- C8 failing input: the validated request (geometric mode, firstTerm 2,
ratio 3, termCount 4) does not invoke the geometric generator and renders
nothing: the handler ends in the caught `NameError` of line 146 instead of
rendering the geometric sequence `[2, 6, 18, 54]`, its sum 80 and its
average 20, as the spec requires. -/
theorem geometric_request_not_rendered :
    runGenerateHandler SequenceType.geometric 2 3 4 =
        GenOutcome.nameErrorCaught ∧
      generate_geometric_sequence 2 3 4 = [2, 6, 18, 54] ∧
      calculate_geometric_sum 2 3 4 = 80 ∧
      GenOutcome.nameErrorCaught ≠
        GenOutcome.rendered [2, 6, 18, 54] 80 (80 / 4) := by
  refine ⟨by decide, ?_, ?_, by decide⟩
  · rw [generate_geometric_sequence_eq_map]
    norm_num [List.range_succ]
  · norm_num [calculate_geometric_sum]

end App

namespace App

/-- Witness for C1 on the spec's own example `generateArithmetic(1, 1, 5)`. -/
theorem arithmetic_sequence_correct_witness :
    (0 : ℕ) < 5 ∧ (generate_arithmetic_sequence 1 1 5).length = 5 ∧
      (generate_arithmetic_sequence 1 1 5).get? 0 =
        some (1 + ((0 : ℕ) : ℚ) * 1) :=
  ⟨by decide, (arithmetic_sequence_correct 1 1 5).1,
    (arithmetic_sequence_correct 1 1 5).2 0 (by decide)⟩

/-- Witness for C2 on the spec's own example `generateGeometric(2, 3, 4)`. -/
theorem geometric_sequence_correct_witness :
    (2 : ℕ) < 4 ∧ (generate_geometric_sequence 2 3 4).length = 4 ∧
      (generate_geometric_sequence 2 3 4).get? 2 =
        some ((2 : ℚ) * 3 ^ (2 : ℕ)) :=
  ⟨by decide, (geometric_sequence_correct 2 3 4).1,
    (geometric_sequence_correct 2 3 4).2 2 (by decide)⟩

/-- Witness for C3 at ratio 1 (`geometricSum(5, 1, 3)`) and at the spec's
example `geometricSum(2, 3, 4)`. -/
theorem geometric_sum_formula_witness :
    calculate_geometric_sum 5 1 3 = ((3 : ℕ) : ℚ) * 5 ∧
      (3 : ℚ) ≠ 1 ∧
      calculate_geometric_sum 2 3 4 = 2 * (1 - 3 ^ (4 : ℕ)) / (1 - 3) :=
  ⟨(geometric_sum_formula 5 1 3).1 rfl, by norm_num,
    (geometric_sum_formula 2 3 4).2 (by norm_num)⟩

end App
